import Mathlib

/-!
Verification of the adaptive throughput-search engine of
perfkitbenchmarker/linux_benchmarks/ai_model_throughput_benchmark.py.

Shallow embedding conventions:
* times and durations are exact rationals;
* the effectful burst run (BurstRequestsOverTime as called by
  FindMaxThroughput) is an oracle parameter mapping a concurrency level to
  the list of ModelResponse outcomes it collected;
* Python exceptions are modelled with Except; flag values are plain
  arguments (an optional integer flag is Option Int, Python truthiness of
  an integer is the test against 0);
* Python range(a, b, 3) is pythonRange3 a b below.
-/

namespace AiModelThroughput

/-- Flag constant FAIL_LATENCY = 95 (seconds): requests longer than this
are failures. -/
def FAIL_LATENCY : ℚ := 95

/-- Flag constant QUEUE_WAIT_TIME = 10 * 60 (seconds). -/
def QUEUE_WAIT_TIME : ℚ := 10 * 60

/-- Embedding of the dataclass ModelResponse: a timestamped outcome of one
request; status 0 is success, nonzero is error. -/
structure ModelResponse where
  start_time : ℚ
  end_time : ℚ
  response : Option String := none
  status : ℤ := 0
deriving DecidableEq

/-- The failure predicate applied in FindMaxThroughput:
status nonzero or duration above FAIL_LATENCY. -/
def isFailed (r : ModelResponse) : Bool :=
  r.status ≠ 0 || r.end_time - r.start_time > FAIL_LATENCY

/-- The failed subsequence of a run's outcomes (the failed_responses list
comprehension in FindMaxThroughput). -/
def failedOf (rs : List ModelResponse) : List ModelResponse :=
  rs.filter isFailed

/-- Metadata bag attached to every emitted sample by AggregateResponses
(the fields it updates; the model resource metadata is not modelled). -/
structure SampleMetadata where
  parallel_requests : ℤ
  test_duration : ℤ
  burst_time : ℚ
  effective_qps : ℚ
deriving DecidableEq

/-- Embedding of sample.Sample as used by this benchmark. -/
structure Sample where
  metric : String
  value : ℚ
  unit : String
  metadata : SampleMetadata
deriving DecidableEq

/-- Insertion of one element into an ascending list, for the sort
underlying the Python statistics functions. -/
def insertAsc (x : ℚ) : List ℚ → List ℚ
  | [] => [x]
  | y :: ys => if x ≤ y then x :: y :: ys else y :: insertAsc x ys

/-- Ascending sort of a list of rationals (Python sorted). -/
def sortAsc : List ℚ → List ℚ
  | [] => []
  | x :: xs => insertAsc x (sortAsc xs)

/-- Embedding of statistics.median: sort ascending; odd length takes the
middle element, even length averages the two middle elements.  (Python
raises on an empty list; the benchmark never calls it on one; the getD
default is irrelevant there.) -/
def pymedian (l : List ℚ) : ℚ :=
  let s := sortAsc l
  let n := l.length
  if n % 2 = 1 then s.getD (n / 2) 0
  else (s.getD (n / 2 - 1) 0 + s.getD (n / 2) 0) / 2

/-- Embedding of statistics.mean: sum divided by length. -/
def pymean (l : List ℚ) : ℚ := l.sum / (l.length : ℚ)

/-- Durations end_time - start_time of a list of responses. -/
def durationsOf (rs : List ModelResponse) : List ℚ :=
  rs.map (fun r => r.end_time - r.start_time)

/-- The metadata dict built by AggregateResponses. -/
def mkMetadata (burst_requests : ℤ) (test_duration : ℤ) (burst_time : ℚ) :
    SampleMetadata :=
  { parallel_requests := burst_requests
    test_duration := test_duration
    burst_time := burst_time
    effective_qps := (burst_requests : ℚ) / burst_time }

/-- Embedding of _AggregateResponses: failure median / count samples when
failures exist; then, when the first argument is nonempty, success rate,
response count, median and mean over the durations of the first argument.
Note the success statistics are computed from whatever list is passed as
the first argument, which at one call site is the full outcome list of a
failed run, not only its successes. -/
def AggregateResponses (responses failed_responses : List ModelResponse)
    (burst_requests : ℤ) (test_duration : ℤ) (burst_time : ℚ) : List Sample :=
  let successful_durations := durationsOf responses
  let failed_durations := durationsOf failed_responses
  let md := mkMetadata burst_requests test_duration burst_time
  let failSamples : List Sample :=
    if failed_durations = [] then []
    else
      [⟨"failure_median_response_time", pymedian failed_durations, "seconds", md⟩,
       ⟨"num_failures", (failed_durations.length : ℚ), "count", md⟩]
  if successful_durations = [] then failSamples
  else
    failSamples ++
      [⟨"success_rate",
        (successful_durations.length : ℚ) /
          ((successful_durations.length : ℚ) + (failed_durations.length : ℚ)) * 100,
        "percent", md⟩,
       ⟨"num_responses", (responses.length : ℚ), "count", md⟩,
       ⟨"median_response_time", pymedian successful_durations, "seconds", md⟩,
       ⟨"mean_response_time", pymean successful_durations, "seconds", md⟩]

/-- Auxiliary builder for pythonRange3: n elements starting at a with
stride 3. -/
def pyrangeAux : ℕ → ℤ → List ℤ
  | 0, _ => []
  | n + 1, a => a :: pyrangeAux n (a + 3)

/-- Embedding of Python range(a, b, 3): the integers a, a+3, a+6, ...
strictly below b.  The element count is the ceiling of (b-a)/3, clamped
at zero. -/
def pythonRange3 (a b : ℤ) : List ℤ :=
  pyrangeAux ((b - a + 2).toNat / 3) a

/-- State threaded through the search loop of FindMaxThroughput: the local
variables of the function plus the trace of levels actually attempted. -/
structure SearchState where
  last_responses : List ModelResponse
  responses : List ModelResponse
  failed_responses : List ModelResponse
  burst_requests : ℤ
  attempted : List ℤ
deriving DecidableEq

/-- The initial values of the loop variables of FindMaxThroughput. -/
def initState (start : ℤ) : SearchState :=
  ⟨[], [], [], start, []⟩

/-- The for loop of FindMaxThroughput over the concurrency levels: run the
burst oracle at each level; a level with a nonempty failed set breaks the
loop (last_responses keeps its previous value); a clean level saves its
outcomes in last_responses and continues. -/
def searchLoop (runBurst : ℤ → List ModelResponse) :
    List ℤ → SearchState → SearchState
  | [], st => st
  | lvl :: rest, st =>
    let rs := runBurst lvl
    let fs := failedOf rs
    if fs = [] then
      searchLoop runBurst rest ⟨rs, rs, fs, lvl, st.attempted ++ [lvl]⟩
    else
      ⟨st.last_responses, rs, fs, lvl, st.attempted ++ [lvl]⟩

/-- The max_requests bound of FindMaxThroughput:
Python "_MAX_PARALLEL_REQUESTS.value or (_STARTING_REQUESTS.value + 1)";
an unset flag (and, by integer truthiness, a zero flag) falls back to
start + 1. -/
def maxRequestsOf (start : ℤ) (maxReq : Option ℤ) : ℤ :=
  match maxReq with
  | none => start + 1
  | some m => if m = 0 then start + 1 else m

/-- The list of concurrency levels the for loop of FindMaxThroughput
ranges over: range(start, max_requests, 3). -/
def attemptLevels (start : ℤ) (maxReq : Option ℤ) : List ℤ :=
  pythonRange3 start (maxRequestsOf start maxReq)

/-- The final loop state of FindMaxThroughput for a given burst oracle and
configuration. -/
def finalState (runBurst : ℤ → List ModelResponse) (start : ℤ)
    (maxReq : Option ℤ) : SearchState :=
  searchLoop runBurst (attemptLevels start maxReq) (initState start)

/-- The concurrency levels actually attempted by FindMaxThroughput. -/
def attemptedLevels (runBurst : ℤ → List ModelResponse) (start : ℤ)
    (maxReq : Option ℤ) : List ℤ :=
  (finalState runBurst start maxReq).attempted

/-- The last_successful_bursts value of FindMaxThroughput in its
successful branch: the final loop level, minus the step of 3 when the
loop broke on failures. -/
def lsbOf (runBurst : ℤ → List ModelResponse) (start : ℤ)
    (maxReq : Option ℤ) : ℤ :=
  let st := finalState runBurst start maxReq
  if st.failed_responses = [] then st.burst_requests
  else st.burst_requests - 3

/-- Placeholder sample used only for the headD access below (the source
indexes samples[0] under an assert that samples is nonempty). -/
def defaultSample : Sample :=
  ⟨"", 0, "", mkMetadata 0 0 1⟩

/-- Embedding of FindMaxThroughput.  The burst oracle stands for the
effectful BurstRequestsOverTime call at each level.  If last_responses is
still empty after the loop, the degraded branch aggregates the last run's
full outcome list against its failed subset, labelled with the starting
level, and emits no max_throughput sample.  Otherwise the last successful
level (breaking level minus the step of 3 when the loop broke, the last
level run otherwise) labels the aggregation of last_responses against the
final failed_responses, and a max_throughput sample is appended. -/
def FindMaxThroughput (runBurst : ℤ → List ModelResponse) (start : ℤ)
    (maxReq : Option ℤ) (test_duration : ℤ) (burst_time : ℚ) : List Sample :=
  let st := finalState runBurst start maxReq
  if st.last_responses = [] then
    AggregateResponses st.responses st.failed_responses start
      test_duration burst_time
  else
    let last_successful_bursts :=
      if st.failed_responses = [] then st.burst_requests
      else st.burst_requests - 3
    let samples := AggregateResponses st.last_responses st.failed_responses
      last_successful_bursts test_duration burst_time
    let md := (samples.headD defaultSample).metadata
    samples ++
      [⟨"max_throughput", (last_successful_bursts : ℚ) / burst_time, "count", md⟩]

/-- Metric names of a report. -/
def metricsOf (samples : List Sample) : List String :=
  samples.map Sample.metric

/-- Metric name / value pairs of a report. -/
def pairsOf (samples : List Sample) : List (String × ℚ) :=
  samples.map (fun s => (s.metric, s.value))

/-- Embedding of CheckPrerequisites: raises Config.InvalidValue exactly
when the max-requests flag is truthy (set and nonzero) and below the
starting-requests flag. -/
def CheckPrerequisites (maxReq : Option ℤ) (start : ℤ) : Except String Unit :=
  match maxReq with
  | none => .ok ()
  | some m =>
    if m ≠ 0 ∧ m < start then
      .error "ai_max_requests must be None or >= ai_starting_requests"
    else .ok ()

/-- The distinguished failure signal of the target-service collaborator
(errors.Resource.GetError), the only exception the SendPrompt contract
raises. -/
inductive GetError
  | getError
deriving DecidableEq

/-- Embedding of TimePromptsForModel.  Its input is the result of the
_SendPrompt target call (a payload on success, the GetError signal on
failure) together with the observed start and end times; it appends
exactly one ModelResponse to the queue: status 0 with the payload on
success, status 1 with no payload when the GetError signal was caught. -/
def TimePromptsForModel (sendResult : Except GetError (Option String))
    (t0 t1 : ℚ) (queue : List ModelResponse) : List ModelResponse :=
  match sendResult with
  | .ok r => queue ++ [⟨t0, t1, r, 0⟩]
  | .error _ => queue ++ [⟨t0, t1, none, 1⟩]

/-- When a given worker's single queued Outcome becomes visible to the
collector: before the first drain, only by the fallback drain, or never
(lost).  This is the scheduling environment of one BurstRequestsOverTime
call. -/
inductive ArrivalPhase
  | early
  | late
  | lost
deriving DecidableEq

/-- Environment of one BurstRequestsOverTime call: per-burst launch
durations, per-worker target-call results and observed times and arrival
phase, and the clock readings observed at each drain step and process
join. -/
structure BurstEnv where
  launch : ℕ → ℚ
  wsend : ℕ → Except GetError (Option String)
  wt0 : ℕ → ℚ
  wt1 : ℕ → ℚ
  phase : ℕ → ArrivalPhase
  tick1 : ℕ → ℚ
  jointick : ℕ → ℚ
  tick2 : ℕ → ℚ

/-- The one ModelResponse worker j enqueues (TimePromptsForModel applied
to its inputs). -/
def workerOutcome (env : BurstEnv) (j : ℕ) : ModelResponse :=
  match env.wsend j with
  | .ok r => ⟨env.wt0 j, env.wt1 j, r, 0⟩
  | .error _ => ⟨env.wt0 j, env.wt1 j, none, 1⟩

/-- Queue contents visible to the first drain: the outcomes of the workers
among the n dispatched whose item arrived early, each contributing the
single item TimePromptsForModel put. -/
def earlyQueue (env : BurstEnv) (n : ℕ) : List ModelResponse :=
  (List.range n).filterMap
    (fun j => if env.phase j = .early then some (workerOutcome env j) else none)

/-- Queue contents visible only to the fallback drain. -/
def lateQueue (env : BurstEnv) (n : ℕ) : List ModelResponse :=
  (List.range n).filterMap
    (fun j => if env.phase j = .late then some (workerOutcome env j) else none)

/-- Embedding of the EmptyQueue inner function of BurstRequestsOverTime:
pop until the queue is empty, appending each item to the accumulator and
then checking the elapsed-time reading; a reading above QUEUE_WAIT_TIME
stops the drain (after keeping the item just popped) and flags the
client-overload condition.  Returns the collected items and the flag. -/
def emptyQueueLoop (tick : ℕ → ℚ) :
    List ModelResponse → ℕ → List ModelResponse →
    List ModelResponse × Bool
  | [], _, acc => (acc, false)
  | x :: rest, k, acc =>
    if tick k > QUEUE_WAIT_TIME then (acc ++ [x], true)
    else emptyQueueLoop tick rest (k + 1) (acc ++ [x])

/-- Embedding of the join loop of BurstRequestsOverTime over n processes:
after each join the total elapsed reading is checked against FAIL_LATENCY;
the first reading above it flags the client-overload condition and breaks.
Returns whether the condition was flagged. -/
def joinLoop (jointick : ℕ → ℚ) : ℕ → ℕ → Bool
  | 0, _ => false
  | n + 1, j =>
    if jointick j > FAIL_LATENCY then true
    else joinLoop jointick n (j + 1)

/-- Indices of bursts whose launch took longer than the burst interval
(the client-overload checks inside the burst loop). -/
def launchOverloads (env : BurstEnv) (burst_time : ℚ) (goal_bursts : ℕ) :
    List ℕ :=
  (List.range goal_bursts).filter (fun i => env.launch i > burst_time)

/-- goal_bursts = math.floor(total_duration / time_between_bursts). -/
def goalBursts (total_duration : ℤ) (burst_time : ℚ) : ℕ :=
  (Int.floor ((total_duration : ℚ) / burst_time)).toNat

/-- The warning messages _EncounterClientError logs during one call, in
the non-strict mode where none of them raises. -/
def clientEvents (launches : List ℕ) (drain1 join1 drain2 : Bool) :
    List String :=
  launches.map (fun _ => "client overload: burst launch exceeded burst interval")
    ++ (if drain1 then ["client overload: queue drain timeout"] else [])
    ++ (if join1 then ["client overload: process join timeout"] else [])
    ++ (if drain2 then ["client overload: queue drain timeout"] else [])

/-- The total number of workers one BurstRequestsOverTime call
dispatches: goal_bursts bursts of burst_requests processes each. -/
def totalWorkers (burst_requests : ℕ) (total_duration : ℤ)
    (burst_time : ℚ) : ℕ :=
  goalBursts total_duration burst_time * burst_requests

/-- The first (post-burst) drain of the result queue. -/
def firstDrain (env : BurstEnv) (burst_requests : ℕ) (total_duration : ℤ)
    (burst_time : ℚ) : List ModelResponse × Bool :=
  emptyQueueLoop env.tick1
    (earlyQueue env (totalWorkers burst_requests total_duration burst_time))
    0 []

/-- The fallback drain, run only when the first drain collected nothing. -/
def fallbackDrain (env : BurstEnv) (burst_requests : ℕ)
    (total_duration : ℤ) (burst_time : ℚ) : List ModelResponse × Bool :=
  emptyQueueLoop env.tick2
    (lateQueue env (totalWorkers burst_requests total_duration burst_time))
    0 []

/-- Whether the join loop over all dispatched processes flags the
client-overload condition. -/
def joinFlag (env : BurstEnv) (burst_requests : ℕ) (total_duration : ℤ)
    (burst_time : ℚ) : Bool :=
  joinLoop env.jointick
    (totalWorkers burst_requests total_duration burst_time) 0

/-- Embedding of BurstRequestsOverTime.  strict is the
ai_throw_on_client_errors flag: when it is set, the first client-overload
condition raises (errors.Benchmarks.RunError) at the point where
_EncounterClientError is called; otherwise every condition is only logged
and the call returns its collected results together with the logged
warnings.  goal_bursts bursts of burst_requests workers each are
dispatched; the first drain reads the early queue; every process is then
joined; the fallback drain runs only when the first drain collected
nothing. -/
def BurstRequestsOverTime (env : BurstEnv) (strict : Bool)
    (burst_requests : ℕ) (total_duration : ℤ) (burst_time : ℚ) :
    Except String (List ModelResponse × List String) :=
  let launches :=
    launchOverloads env burst_time (goalBursts total_duration burst_time)
  if strict ∧ launches ≠ [] then
    .error "client overload: burst launch exceeded burst interval"
  else
    let d1 := firstDrain env burst_requests total_duration burst_time
    if strict ∧ d1.2 then .error "client overload: queue drain timeout"
    else
      let jo := joinFlag env burst_requests total_duration burst_time
      if strict ∧ jo then .error "client overload: process join timeout"
      else
        if d1.1 = [] then
          let d2 := fallbackDrain env burst_requests total_duration burst_time
          if strict ∧ d2.2 then
            .error "client overload: queue drain timeout"
          else .ok (d2.1, clientEvents launches d1.2 jo d2.2)
        else .ok (d1.1, clientEvents launches d1.2 jo false)

/-- Levels of a schedule in order, cut inclusively at the first level
whose burst has a nonempty failed set.  This is the spec's description of
the attempted levels, to be compared with the loop's trace. -/
def truncAtFirstFailure (runBurst : ℤ → List ModelResponse) :
    List ℤ → List ℤ
  | [] => []
  | l :: ls =>
    if failedOf (runBurst l) = [] then l :: truncAtFirstFailure runBurst ls
    else [l]

/-- Concrete outcome: success with duration 1 second. -/
def okResp : ModelResponse := ⟨0, 1, none, 0⟩

/-- Concrete outcome: success with duration 2 seconds. -/
def okResp2 : ModelResponse := ⟨0, 2, none, 0⟩

/-- Concrete outcome: success with duration 3 seconds. -/
def okResp3 : ModelResponse := ⟨0, 3, none, 0⟩

/-- Concrete outcome: status 0 but duration 96 s, above FAIL_LATENCY, so
it satisfies the failure predicate. -/
def slowResp : ModelResponse := ⟨0, 96, none, 0⟩

/-- Burst oracle whose every level produces one failed outcome. -/
def rbAllFail : ℤ → List ModelResponse := fun _ => [slowResp]

/-- Burst oracle: level 5 clean with one outcome, any other level fails. -/
def rbBreakAt8 : ℤ → List ModelResponse :=
  fun l => if l = 5 then [okResp] else [slowResp]

/-- Burst oracle: level 5 clean but with zero collected outcomes, any
other level fails. -/
def rbEmptyThenFail : ℤ → List ModelResponse :=
  fun l => if l = 5 then [] else [slowResp]

/-- Burst oracle collecting nothing at every level. -/
def rbEmptyAll : ℤ → List ModelResponse := fun _ => []

/-- Quiet burst environment: instant launches and joins, every worker's
outcome lost, all clock readings zero. -/
def envQuiet : BurstEnv :=
  ⟨fun _ => 0, fun _ => .ok none, fun _ => 0, fun _ => 0,
    fun _ => .lost, fun _ => 0, fun _ => 0, fun _ => 0⟩

/-- Burst environment whose every burst launch takes 2 seconds. -/
def envLaunchSlow : BurstEnv :=
  { envQuiet with launch := fun _ => 2 }

/-! ## Helper lemmas -/

theorem durationsOf_eq_nil {rs : List ModelResponse} :
    durationsOf rs = [] ↔ rs = [] := by
  simp [durationsOf]

theorem failedOf_nil : failedOf [] = [] := rfl

/-- Full characterization of AggregateResponses as the concatenation of
the failure block (when failures exist) and the success block (when the
first list is nonempty). -/
theorem AggregateResponses_eq (r f : List ModelResponse) (b td : ℤ)
    (bt : ℚ) :
    AggregateResponses r f b td bt =
      (if f = [] then [] else
        [⟨"failure_median_response_time", pymedian (durationsOf f), "seconds",
          mkMetadata b td bt⟩,
         ⟨"num_failures", (f.length : ℚ), "count", mkMetadata b td bt⟩]) ++
      (if r = [] then [] else
        [⟨"success_rate",
          (r.length : ℚ) / ((r.length : ℚ) + (f.length : ℚ)) * 100, "percent",
          mkMetadata b td bt⟩,
         ⟨"num_responses", (r.length : ℚ), "count", mkMetadata b td bt⟩,
         ⟨"median_response_time", pymedian (durationsOf r), "seconds",
          mkMetadata b td bt⟩,
         ⟨"mean_response_time", pymean (durationsOf r), "seconds",
          mkMetadata b td bt⟩]) := by
  by_cases h1 : f = [] <;> by_cases h2 : r = [] <;>
    simp [AggregateResponses, h1, h2, durationsOf_eq_nil, durationsOf]

/-- Metric names emitted by AggregateResponses. -/
theorem metricsOf_AggregateResponses (r f : List ModelResponse)
    (b td : ℤ) (bt : ℚ) :
    metricsOf (AggregateResponses r f b td bt) =
      (if f = [] then []
       else ["failure_median_response_time", "num_failures"]) ++
      (if r = [] then []
       else ["success_rate", "num_responses", "median_response_time",
             "mean_response_time"]) := by
  rw [AggregateResponses_eq]
  by_cases h1 : f = [] <;> by_cases h2 : r = [] <;> simp [metricsOf, h1, h2]

/-- AggregateResponses never emits a max_throughput sample. -/
theorem max_throughput_not_in_agg (r f : List ModelResponse) (b td : ℤ)
    (bt : ℚ) :
    "max_throughput" ∉ metricsOf (AggregateResponses r f b td bt) := by
  rw [metricsOf_AggregateResponses]
  by_cases h1 : f = [] <;> by_cases h2 : r = [] <;> simp [h1, h2]

/-- Every sample of AggregateResponses carries the metadata bag built from
its label arguments. -/
theorem metadata_AggregateResponses (r f : List ModelResponse) (b td : ℤ)
    (bt : ℚ) :
    ∀ s ∈ AggregateResponses r f b td bt, s.metadata = mkMetadata b td bt := by
  rw [AggregateResponses_eq]
  intro s hs
  by_cases h1 : f = [] <;> by_cases h2 : r = [] <;>
    simp [h1, h2] at hs <;> rcases hs with rfl | rfl | rfl | rfl | rfl | rfl <;> rfl

theorem searchLoop_nil (rb : ℤ → List ModelResponse) (st : SearchState) :
    searchLoop rb [] st = st := rfl

theorem searchLoop_cons_clean (rb : ℤ → List ModelResponse) (l : ℤ)
    (rest : List ℤ) (st : SearchState) (h : failedOf (rb l) = []) :
    searchLoop rb (l :: rest) st =
      searchLoop rb rest ⟨rb l, rb l, [], l, st.attempted ++ [l]⟩ := by
  simp [searchLoop, h]

theorem searchLoop_cons_break (rb : ℤ → List ModelResponse) (l : ℤ)
    (rest : List ℤ) (st : SearchState) (h : failedOf (rb l) ≠ []) :
    searchLoop rb (l :: rest) st =
      ⟨st.last_responses, rb l, failedOf (rb l), l, st.attempted ++ [l]⟩ := by
  simp [searchLoop, h]

/-- Running the loop across a clean block ending at level L leaves the
state holding L's outcomes. -/
theorem searchLoop_clean_append (rb : ℤ → List ModelResponse) :
    ∀ (ls : List ℤ) (L : ℤ) (rest : List ℤ) (st : SearchState),
      (∀ l ∈ ls, failedOf (rb l) = []) → failedOf (rb L) = [] →
      searchLoop rb (ls ++ [L] ++ rest) st =
        searchLoop rb rest ⟨rb L, rb L, [], L, st.attempted ++ ls ++ [L]⟩
  | [], L, rest, st, _, hL => by
    simp only [List.nil_append, List.singleton_append]
    rw [searchLoop_cons_clean rb L rest st hL]
    simp
  | l :: ls, L, rest, st, hls, hL => by
    have hl : failedOf (rb l) = [] := hls l (List.mem_cons_self l ls)
    have ih := searchLoop_clean_append rb ls L rest
      ⟨rb l, rb l, [], l, st.attempted ++ [l]⟩
      (fun x hx => hls x (List.mem_cons_of_mem l hx)) hL
    simp only [List.cons_append]
    rw [searchLoop_cons_clean rb l (ls ++ [L] ++ rest) st hl, ih]
    simp [List.append_assoc]

/-- The attempted trace of the loop is the schedule cut inclusively at the
first failing level. -/
theorem searchLoop_attempted (rb : ℤ → List ModelResponse) :
    ∀ (ls : List ℤ) (st : SearchState),
      (searchLoop rb ls st).attempted =
        st.attempted ++ truncAtFirstFailure rb ls
  | [], st => by simp [searchLoop, truncAtFirstFailure]
  | l :: ls, st => by
    by_cases h : failedOf (rb l) = []
    · rw [searchLoop_cons_clean rb l ls st h,
        searchLoop_attempted rb ls ⟨rb l, rb l, [], l, st.attempted ++ [l]⟩]
      simp [truncAtFirstFailure, h]
    · rw [searchLoop_cons_break rb l ls st h]
      simp [truncAtFirstFailure, h]

theorem pythonRange3_eq_nil {a b : ℤ} (h : b ≤ a) : pythonRange3 a b = [] := by
  have hlt : (b - a + 2).toNat < 3 := by omega
  simp [pythonRange3, Nat.div_eq_of_lt hlt, pyrangeAux]

theorem pythonRange3_eq_cons {a b : ℤ} (h : a < b) :
    pythonRange3 a b = a :: pythonRange3 (a + 3) b := by
  have h3 : 3 ≤ (b - a + 2).toNat := by omega
  have hdiv : (b - a + 2).toNat / 3 = ((b - a + 2).toNat - 3) / 3 + 1 :=
    Nat.div_eq_sub_div (by norm_num) h3
  have hsub : (b - a + 2).toNat - 3 = (b - (a + 3) + 2).toNat := by omega
  rw [pythonRange3, hdiv, hsub, pyrangeAux, pythonRange3]

/-- Unfolding a stride-3 block from the front of a Python range. -/
theorem pythonRange3_decomp :
    ∀ (K : ℕ) (a b : ℤ), a + 3 * (K : ℤ) < b →
      pythonRange3 a b = pyrangeAux K a ++ pythonRange3 (a + 3 * (K : ℤ)) b
  | 0, a, b, _ => by simp [pyrangeAux]
  | K + 1, a, b, h => by
    have ha : a < b := by push_cast at h ⊢; omega
    have ih := pythonRange3_decomp K (a + 3) b (by push_cast at h ⊢; omega)
    rw [pythonRange3_eq_cons ha, ih, pyrangeAux]
    have : a + 3 + 3 * (K : ℤ) = a + 3 * ((K : ℤ) + 1) := by ring
    simp [this]

/-- The elements of pyrangeAux K a are a, a+3, ..., a+3(K-1). -/
theorem mem_pyrangeAux :
    ∀ (K : ℕ) (a l : ℤ),
      l ∈ pyrangeAux K a ↔ ∃ j : ℕ, j < K ∧ l = a + 3 * (j : ℤ)
  | 0, a, l => by simp [pyrangeAux]
  | K + 1, a, l => by
    rw [pyrangeAux]
    simp only [List.mem_cons, mem_pyrangeAux K (a + 3) l]
    constructor
    · rintro (rfl | ⟨j, hj, rfl⟩)
      · exact ⟨0, by omega, by push_cast; ring⟩
      · exact ⟨j + 1, by omega, by push_cast; ring⟩
    · rintro ⟨j, hj, rfl⟩
      match j with
      | 0 => left; push_cast; ring
      | j + 1 =>
        right
        exact ⟨j, by omega, by push_cast; ring⟩

/-- Splitting the final element off a nonempty stride-3 block. -/
theorem pyrangeAux_snoc :
    ∀ (K : ℕ) (a : ℤ),
      pyrangeAux (K + 1) a = pyrangeAux K a ++ [a + 3 * (K : ℤ)]
  | 0, a => by simp [pyrangeAux]
  | K + 1, a => by
    rw [pyrangeAux, pyrangeAux_snoc K (a + 3), pyrangeAux]
    have : a + 3 + 3 * (K : ℤ) = a + 3 * ((K : ℤ) + 1) := by ring
    simp [this]

/-- The head of a schedule is always attempted (as the first clean level
or as the breaking level). -/
theorem mem_head_trunc (rb : ℤ → List ModelResponse) (l : ℤ) (ls : List ℤ) :
    l ∈ truncAtFirstFailure rb (l :: ls) := by
  by_cases h : failedOf (rb l) = [] <;> simp [truncAtFirstFailure, h]

theorem insertAsc_eq_orderedInsert (x : ℚ) :
    ∀ l : List ℚ, insertAsc x l = List.orderedInsert (· ≤ ·) x l
  | [] => rfl
  | y :: ys => by
    rw [insertAsc, List.orderedInsert, insertAsc_eq_orderedInsert x ys]

theorem sortAsc_eq_insertionSort :
    ∀ l : List ℚ, sortAsc l = List.insertionSort (· ≤ ·) l
  | [] => rfl
  | x :: xs => by
    rw [sortAsc, List.insertionSort, sortAsc_eq_insertionSort xs,
      insertAsc_eq_orderedInsert]

/-- The sort underlying pymedian is a permutation of its input, so
pymedian is the standard median of the multiset of values. -/
theorem sortAsc_perm (l : List ℚ) : (sortAsc l).Perm l := by
  rw [sortAsc_eq_insertionSort]
  exact List.perm_insertionSort (· ≤ ·) l

/-- The sort underlying pymedian is ascending. -/
theorem sortAsc_sorted (l : List ℚ) : (sortAsc l).Sorted (· ≤ ·) := by
  rw [sortAsc_eq_insertionSort]
  exact List.sorted_insertionSort (· ≤ ·) l

/-- Head metadata of a nonempty aggregation (the samples[0].metadata
access of FindMaxThroughput). -/
theorem headD_metadata_agg (r f : List ModelResponse) (b td : ℤ) (bt : ℚ)
    (hr : r ≠ []) :
    ((AggregateResponses r f b td bt).headD defaultSample).metadata =
      mkMetadata b td bt := by
  rw [AggregateResponses_eq]
  by_cases h1 : f = [] <;> simp [h1, hr]

/-- The degraded branch of FindMaxThroughput: when no clean run's
outcomes are retained, the last run's full outcome list is aggregated
against its failed subset, labelled with the starting level. -/
theorem FindMaxThroughput_degraded_eq (rb : ℤ → List ModelResponse)
    (start : ℤ) (maxReq : Option ℤ) (td : ℤ) (bt : ℚ)
    (h : (finalState rb start maxReq).last_responses = []) :
    FindMaxThroughput rb start maxReq td bt =
      AggregateResponses (finalState rb start maxReq).responses
        (finalState rb start maxReq).failed_responses start td bt := by
  simp [FindMaxThroughput, h]

/-- The successful branch of FindMaxThroughput: the retained clean
outcomes are aggregated against the final failed set, labelled with the
last successful level, and a max_throughput sample is appended. -/
theorem FindMaxThroughput_success_eq (rb : ℤ → List ModelResponse)
    (start : ℤ) (maxReq : Option ℤ) (td : ℤ) (bt : ℚ)
    (h : (finalState rb start maxReq).last_responses ≠ []) :
    FindMaxThroughput rb start maxReq td bt =
      AggregateResponses (finalState rb start maxReq).last_responses
        (finalState rb start maxReq).failed_responses
        (lsbOf rb start maxReq) td bt ++
      [⟨"max_throughput", ((lsbOf rb start maxReq : ℤ) : ℚ) / bt, "count",
        mkMetadata (lsbOf rb start maxReq) td bt⟩] := by
  have hmd := headD_metadata_agg (finalState rb start maxReq).last_responses
    (finalState rb start maxReq).failed_responses
    (lsbOf rb start maxReq) td bt h
  simp only [FindMaxThroughput, lsbOf] at hmd ⊢
  rw [if_neg (by simpa using h)]
  simp only [hmd]

theorem clientEvents_eq_nil_iff (ls : List ℕ) (b1 b2 b3 : Bool) :
    clientEvents ls b1 b2 b3 = [] ↔
      ls = [] ∧ b1 = false ∧ b2 = false ∧ b3 = false := by
  cases b1 <;> cases b2 <;> cases b3 <;> simp [clientEvents]

theorem clientEvents_ne_of_launches {ls : List ℕ} (hL : ls ≠ [])
    (b1 b2 b3 : Bool) : clientEvents ls b1 b2 b3 ≠ [] := by
  intro h
  exact hL ((clientEvents_eq_nil_iff ls b1 b2 b3).mp h).1

theorem clientEvents_ne_of_join (ls : List ℕ) (b1 : Bool) {b2 : Bool}
    (h2 : b2 = true) (b3 : Bool) : clientEvents ls b1 b2 b3 ≠ [] := by
  intro h
  have := ((clientEvents_eq_nil_iff ls b1 b2 b3).mp h).2.2.1
  rw [h2] at this
  exact Bool.noConfusion this

/-- The drain collects at most the accumulator plus the queue contents. -/
theorem emptyQueueLoop_len (tick : ℕ → ℚ) :
    ∀ (q : List ModelResponse) (k : ℕ) (acc : List ModelResponse),
      ((emptyQueueLoop tick q k acc).1).length ≤ acc.length + q.length
  | [], k, acc => by simp [emptyQueueLoop]
  | x :: rest, k, acc => by
    rw [emptyQueueLoop]
    by_cases h : tick k > QUEUE_WAIT_TIME
    · rw [if_pos h]
      simp
    · rw [if_neg h]
      have := emptyQueueLoop_len tick rest (k + 1) (acc ++ [x])
      simp at this ⊢
      omega

theorem earlyQueue_len (env : BurstEnv) (n : ℕ) :
    (earlyQueue env n).length ≤ n := by
  have := List.length_filterMap_le
    (fun j => if env.phase j = .early then some (workerOutcome env j) else none)
    (List.range n)
  simpa [earlyQueue] using this

theorem lateQueue_len (env : BurstEnv) (n : ℕ) :
    (lateQueue env n).length ≤ n := by
  have := List.length_filterMap_le
    (fun j => if env.phase j = .late then some (workerOutcome env j) else none)
    (List.range n)
  simpa [lateQueue] using this

theorem firstDrain_len (env : BurstEnv) (br : ℕ) (td : ℤ) (tb : ℚ) :
    ((firstDrain env br td tb).1).length ≤ totalWorkers br td tb := by
  have h1 := emptyQueueLoop_len env.tick1
    (earlyQueue env (totalWorkers br td tb)) 0 []
  have h2 := earlyQueue_len env (totalWorkers br td tb)
  simp at h1
  unfold firstDrain
  omega

theorem fallbackDrain_len (env : BurstEnv) (br : ℕ) (td : ℤ) (tb : ℚ) :
    ((fallbackDrain env br td tb).1).length ≤ totalWorkers br td tb := by
  have h1 := emptyQueueLoop_len env.tick2
    (lateQueue env (totalWorkers br td tb)) 0 []
  have h2 := lateQueue_len env (totalWorkers br td tb)
  simp at h1
  unfold fallbackDrain
  omega

/-- The non-strict run never errors: it returns the collected results and
the logged warnings of whichever drain produced them. -/
theorem burst_nonstrict_eq (env : BurstEnv) (br : ℕ) (td : ℤ) (tb : ℚ) :
    BurstRequestsOverTime env false br td tb =
      if (firstDrain env br td tb).1 = [] then
        .ok ((fallbackDrain env br td tb).1,
          clientEvents (launchOverloads env tb (goalBursts td tb))
            (firstDrain env br td tb).2 (joinFlag env br td tb)
            (fallbackDrain env br td tb).2)
      else
        .ok ((firstDrain env br td tb).1,
          clientEvents (launchOverloads env tb (goalBursts td tb))
            (firstDrain env br td tb).2 (joinFlag env br td tb) false) := by
  simp [BurstRequestsOverTime]

/-! ## Claim theorems -/

/-- C1 (counterexample): when the very first level (5, with MaxConcurrency
unset) produces a failed outcome, the claim says the result contains only
failure statistics; but the code also emits success_rate,
median_response_time (and num_responses, mean_response_time), computed
over the failed run's full outcome list, so the claim is false.  Only the
max_throughput part holds. -/
theorem claim_C1_counterexample :
    failedOf (rbAllFail 5) ≠ [] ∧
    "success_rate" ∈ metricsOf (FindMaxThroughput rbAllFail 5 none 60 1) ∧
    "median_response_time" ∈
      metricsOf (FindMaxThroughput rbAllFail 5 none 60 1) ∧
    "max_throughput" ∉ metricsOf (FindMaxThroughput rbAllFail 5 none 60 1) := by
  have hm : metricsOf (FindMaxThroughput rbAllFail 5 none 60 1) =
      ["failure_median_response_time", "num_failures", "success_rate",
       "num_responses", "median_response_time", "mean_response_time"] := by
    norm_num [FindMaxThroughput, finalState, initState, attemptLevels,
      maxRequestsOf, pythonRange3, pyrangeAux, searchLoop, failedOf, isFailed,
      rbAllFail, slowResp, FAIL_LATENCY, List.filter, AggregateResponses,
      durationsOf, metricsOf]
  refine ⟨?_, ?_, ?_, ?_⟩
  · norm_num [failedOf, isFailed, rbAllFail, slowResp, FAIL_LATENCY,
      List.filter]
  · rw [hm]; decide
  · rw [hm]; decide
  · rw [hm]; decide

/-- C1 (amended): if the very first concurrency level attempted produces
at least one outcome satisfying the failure predicate, FindMaxThroughput
returns the aggregation of the failed run's FULL outcome list against its
failed subset, labelled with StartConcurrency: failure statistics
(failure_median_response_time, num_failures) are emitted and no
max_throughput sample is emitted, but success_rate, num_responses,
median_response_time and mean_response_time ARE also emitted, computed
over all outcomes of the failed run (failures included). -/
theorem claim_C1_amended (rb : ℤ → List ModelResponse) (start : ℤ)
    (maxReq : Option ℤ) (td : ℤ) (bt : ℚ)
    (hlt : start < maxRequestsOf start maxReq)
    (hfail : failedOf (rb start) ≠ []) :
    FindMaxThroughput rb start maxReq td bt =
      AggregateResponses (rb start) (failedOf (rb start)) start td bt ∧
    "max_throughput" ∉ metricsOf (FindMaxThroughput rb start maxReq td bt) ∧
    "success_rate" ∈ metricsOf (FindMaxThroughput rb start maxReq td bt) ∧
    "failure_median_response_time" ∈
      metricsOf (FindMaxThroughput rb start maxReq td bt) := by
  have hlv : attemptLevels start maxReq =
      start :: pythonRange3 (start + 3) (maxRequestsOf start maxReq) := by
    rw [attemptLevels, pythonRange3_eq_cons hlt]
  have hst : finalState rb start maxReq =
      ⟨[], rb start, failedOf (rb start), start, [start]⟩ := by
    rw [finalState, hlv, searchLoop_cons_break rb start _ _ hfail]
    rfl
  have hr : rb start ≠ [] := by
    intro h0
    rw [h0] at hfail
    exact hfail failedOf_nil
  have he := FindMaxThroughput_degraded_eq rb start maxReq td bt (by rw [hst])
  rw [hst] at he
  refine ⟨he, ?_, ?_, ?_⟩
  · rw [he]; exact max_throughput_not_in_agg _ _ _ _ _
  · rw [he, metricsOf_AggregateResponses]
    simp [hr, hfail]
  · rw [he, metricsOf_AggregateResponses]
    simp [hr, hfail]

/-- C1 (witness): the amended theorem applied to the concrete
configuration of the counterexample. -/
theorem claim_C1_witness :
    (((5 : ℤ) < maxRequestsOf 5 none) ∧ failedOf (rbAllFail 5) ≠ []) ∧
    (FindMaxThroughput rbAllFail 5 none 60 1 =
      AggregateResponses (rbAllFail 5) (failedOf (rbAllFail 5)) 5 60 1 ∧
    "max_throughput" ∉ metricsOf (FindMaxThroughput rbAllFail 5 none 60 1) ∧
    "success_rate" ∈ metricsOf (FindMaxThroughput rbAllFail 5 none 60 1) ∧
    "failure_median_response_time" ∈
      metricsOf (FindMaxThroughput rbAllFail 5 none 60 1)) :=
  ⟨⟨by decide, by
      norm_num [failedOf, isFailed, rbAllFail, slowResp, FAIL_LATENCY,
        List.filter]⟩,
   claim_C1_amended rbAllFail 5 none 60 1 (by decide) (by
      norm_num [failedOf, isFailed, rbAllFail, slowResp, FAIL_LATENCY,
        List.filter])⟩

/-- C2 (counterexample): level 5 is clean (one success of duration 1) and
level 8 breaks (one failure of duration 96).  The claim says every
reported statistic is the Aggregator's result computed solely from the
last successful run, whose aggregation is success_rate 100 with no
failure statistics; but the actual report carries num_failures and
failure_median_response_time from the breaking run, and success_rate 50
whose denominator counts the breaking run's failure. -/
theorem claim_C2_counterexample :
    failedOf (rbBreakAt8 5) = [] ∧
    failedOf (rbBreakAt8 8) ≠ [] ∧
    pairsOf (FindMaxThroughput rbBreakAt8 5 (some 11) 60 1) =
      [("failure_median_response_time", 96), ("num_failures", 1),
       ("success_rate", 50), ("num_responses", 1),
       ("median_response_time", 1), ("mean_response_time", 1),
       ("max_throughput", 5)] ∧
    pairsOf (AggregateResponses (rbBreakAt8 5) [] 5 60 1) =
      [("success_rate", 100), ("num_responses", 1),
       ("median_response_time", 1), ("mean_response_time", 1)] := by
  refine ⟨?_, ?_, ?_, ?_⟩ <;>
    norm_num [FindMaxThroughput, finalState, initState, attemptLevels,
      maxRequestsOf, pythonRange3, pyrangeAux, searchLoop, failedOf, isFailed,
      rbBreakAt8, okResp, slowResp, FAIL_LATENCY, List.filter,
      AggregateResponses, durationsOf, pairsOf, lsbOf, defaultSample,
      mkMetadata, pymedian, pymean, sortAsc, insertAsc]

/-- C2 (amended): when the search stops with retained clean outcomes
(FoundBreak after at least one clean level, or ReachedMax), num_responses,
median_response_time and mean_response_time are computed solely from the
last successful run's outcomes; but the failure statistics
(failure_median_response_time, num_failures), present exactly when the
search broke, come from the BREAKING run's failed outcomes, which also
enter the denominator of success_rate.  Under ReachedMax the final failed
set is empty and all statistics come solely from the last run. -/
theorem claim_C2_amended (rb : ℤ → List ModelResponse) (start : ℤ)
    (maxReq : Option ℤ) (td : ℤ) (bt : ℚ)
    (h : (finalState rb start maxReq).last_responses ≠ []) :
    pairsOf (FindMaxThroughput rb start maxReq td bt) =
      (if (finalState rb start maxReq).failed_responses = [] then []
       else
        [("failure_median_response_time",
          pymedian (durationsOf (finalState rb start maxReq).failed_responses)),
         ("num_failures",
          ((finalState rb start maxReq).failed_responses.length : ℚ))]) ++
      [("success_rate",
        ((finalState rb start maxReq).last_responses.length : ℚ) /
          (((finalState rb start maxReq).last_responses.length : ℚ) +
            ((finalState rb start maxReq).failed_responses.length : ℚ)) * 100),
       ("num_responses",
        ((finalState rb start maxReq).last_responses.length : ℚ)),
       ("median_response_time",
        pymedian (durationsOf (finalState rb start maxReq).last_responses)),
       ("mean_response_time",
        pymean (durationsOf (finalState rb start maxReq).last_responses)),
       ("max_throughput", ((lsbOf rb start maxReq : ℤ) : ℚ) / bt)] := by
  rw [FindMaxThroughput_success_eq rb start maxReq td bt h]
  simp only [pairsOf, List.map_append]
  rw [AggregateResponses_eq]
  by_cases hf : (finalState rb start maxReq).failed_responses = [] <;>
    simp [hf, h]

/-- C2 (witness): the amended theorem applied to the break-at-8 oracle. -/
theorem claim_C2_witness :
    (finalState rbBreakAt8 5 (some 11)).last_responses ≠ [] ∧
    pairsOf (FindMaxThroughput rbBreakAt8 5 (some 11) 60 1) =
      (if (finalState rbBreakAt8 5 (some 11)).failed_responses = [] then []
       else
        [("failure_median_response_time",
          pymedian
            (durationsOf (finalState rbBreakAt8 5 (some 11)).failed_responses)),
         ("num_failures",
          ((finalState rbBreakAt8 5 (some 11)).failed_responses.length : ℚ))]) ++
      [("success_rate",
        ((finalState rbBreakAt8 5 (some 11)).last_responses.length : ℚ) /
          (((finalState rbBreakAt8 5 (some 11)).last_responses.length : ℚ) +
            ((finalState rbBreakAt8 5 (some 11)).failed_responses.length : ℚ)) *
          100),
       ("num_responses",
        ((finalState rbBreakAt8 5 (some 11)).last_responses.length : ℚ)),
       ("median_response_time",
        pymedian (durationsOf (finalState rbBreakAt8 5 (some 11)).last_responses)),
       ("mean_response_time",
        pymean (durationsOf (finalState rbBreakAt8 5 (some 11)).last_responses)),
       ("max_throughput", ((lsbOf rbBreakAt8 5 (some 11) : ℤ) : ℚ) / 1)] :=
  have hne : (finalState rbBreakAt8 5 (some 11)).last_responses ≠ [] := by
    norm_num [finalState, initState, attemptLevels, maxRequestsOf,
      pythonRange3, pyrangeAux, searchLoop, failedOf, isFailed, rbBreakAt8,
      okResp, slowResp, FAIL_LATENCY, List.filter]
  ⟨hne, claim_C2_amended rbBreakAt8 5 (some 11) 60 1 hne⟩

/-- C3 (counterexample): level 8 (= 5 + 3) is the first level with a
nonempty failed set and is greater than StartConcurrency = 5, yet the
report contains no max_throughput sample at all, because the previous
clean level collected zero outcomes and so the degraded branch runs. -/
theorem claim_C3_counterexample :
    failedOf (rbEmptyThenFail 5) = [] ∧
    failedOf (rbEmptyThenFail 8) ≠ [] ∧
    (5 : ℤ) + 3 * 1 < maxRequestsOf 5 (some 11) ∧
    "max_throughput" ∉
      metricsOf (FindMaxThroughput rbEmptyThenFail 5 (some 11) 60 1) := by
  have hm : metricsOf (FindMaxThroughput rbEmptyThenFail 5 (some 11) 60 1) =
      ["failure_median_response_time", "num_failures", "success_rate",
       "num_responses", "median_response_time", "mean_response_time"] := by
    norm_num [FindMaxThroughput, finalState, initState, attemptLevels,
      maxRequestsOf, pythonRange3, pyrangeAux, searchLoop, failedOf, isFailed,
      rbEmptyThenFail, slowResp, FAIL_LATENCY, List.filter,
      AggregateResponses, durationsOf, metricsOf]
  refine ⟨?_, ?_, by decide, ?_⟩
  · norm_num [failedOf, isFailed, rbEmptyThenFail, List.filter]
  · norm_num [failedOf, isFailed, rbEmptyThenFail, slowResp, FAIL_LATENCY,
      List.filter]
  · rw [hm]; decide

/-- C3 (amended): whenever L = start + 3K (K at least 1) is within range,
every earlier level of the progression is clean, level L has a nonempty
failed set, AND the previous level's run collected at least one outcome,
the report carries a max_throughput sample of value (L - 3)/BurstInterval
and every sample is labelled with last-successful concurrency L - 3.  The
extra hypothesis on the previous level is forced by the counterexample:
with zero retained outcomes the degraded branch runs instead and no
max_throughput is emitted. -/
theorem claim_C3_amended (rb : ℤ → List ModelResponse) (start : ℤ)
    (maxReq : Option ℤ) (td : ℤ) (bt : ℚ) (K : ℕ)
    (hK : 1 ≤ K)
    (hclean : ∀ j : ℕ, j < K → failedOf (rb (start + 3 * (j : ℤ))) = [])
    (hfail : failedOf (rb (start + 3 * (K : ℤ))) ≠ [])
    (hin : start + 3 * (K : ℤ) < maxRequestsOf start maxReq)
    (hprev : rb (start + 3 * (K : ℤ) - 3) ≠ []) :
    ("max_throughput", ((start + 3 * (K : ℤ) - 3 : ℤ) : ℚ) / bt) ∈
      pairsOf (FindMaxThroughput rb start maxReq td bt) ∧
    ∀ s ∈ FindMaxThroughput rb start maxReq td bt,
      s.metadata.parallel_requests = start + 3 * (K : ℤ) - 3 := by
  obtain ⟨K', rfl⟩ : ∃ K', K = K' + 1 := ⟨K - 1, by omega⟩
  have hc : ((K' + 1 : ℕ) : ℤ) = (K' : ℤ) + 1 := by push_cast; ring
  rw [hc] at hfail hin hprev ⊢
  have hplv : start + 3 * ((K' : ℤ) + 1) - 3 = start + 3 * (K' : ℤ) := by ring
  have hdec := pythonRange3_decomp (K' + 1) start
    (maxRequestsOf start maxReq) (by rw [hc]; exact hin)
  rw [hc] at hdec
  have hcons := pythonRange3_eq_cons hin
  have hsnoc := pyrangeAux_snoc K' start
  have hlv : attemptLevels start maxReq =
      pyrangeAux K' start ++ [start + 3 * (K' : ℤ)] ++
        ((start + 3 * ((K' : ℤ) + 1)) ::
          pythonRange3 (start + 3 * ((K' : ℤ) + 1) + 3)
            (maxRequestsOf start maxReq)) := by
    rw [attemptLevels, hdec, hcons, hsnoc]
  have hcleanPre : ∀ l ∈ pyrangeAux K' start, failedOf (rb l) = [] := by
    intro l hl
    obtain ⟨j, hj, rfl⟩ := (mem_pyrangeAux K' start l).mp hl
    exact hclean j (by omega)
  have hcleanK : failedOf (rb (start + 3 * (K' : ℤ))) = [] :=
    hclean K' (by omega)
  have hstate : finalState rb start maxReq =
      ⟨rb (start + 3 * (K' : ℤ)), rb (start + 3 * ((K' : ℤ) + 1)),
        failedOf (rb (start + 3 * ((K' : ℤ) + 1))),
        start + 3 * ((K' : ℤ) + 1),
        ((initState start).attempted ++ pyrangeAux K' start ++
          [start + 3 * (K' : ℤ)]) ++ [start + 3 * ((K' : ℤ) + 1)]⟩ := by
    rw [finalState, hlv,
      searchLoop_clean_append rb (pyrangeAux K' start) (start + 3 * (K' : ℤ))
        _ (initState start) hcleanPre hcleanK,
      searchLoop_cons_break rb _ _ _ hfail]
  rw [hplv] at hprev
  have hlast : (finalState rb start maxReq).last_responses ≠ [] := by
    rw [hstate]
    exact hprev
  have hlsb : lsbOf rb start maxReq = start + 3 * ((K' : ℤ) + 1) - 3 := by
    have hunf : lsbOf rb start maxReq =
        if failedOf (rb (start + 3 * ((K' : ℤ) + 1))) = []
        then start + 3 * ((K' : ℤ) + 1)
        else start + 3 * ((K' : ℤ) + 1) - 3 := by
      unfold lsbOf
      rw [hstate]
    rw [hunf, if_neg hfail]
  have heq := FindMaxThroughput_success_eq rb start maxReq td bt hlast
  constructor
  · rw [heq]
    simp only [pairsOf, List.map_append, List.mem_append]
    right
    rw [hlsb]
    simp
  · intro s hs
    rw [heq] at hs
    rcases List.mem_append.mp hs with hs1 | hs2
    · rw [metadata_AggregateResponses _ _ _ _ _ s hs1, hlsb]
      rfl
    · rw [List.mem_singleton.mp hs2, hlsb]
      rfl

/-- C3 (witness): the amended theorem at the break-at-8 oracle with
K = 1: level 5 clean and nonempty, level 8 breaking, reported last
successful concurrency 5 and max_throughput 5 per second. -/
theorem claim_C3_witness :
    ((1 : ℕ) ≤ 1 ∧
     (∀ j : ℕ, j < 1 → failedOf (rbBreakAt8 (5 + 3 * (j : ℤ))) = []) ∧
     failedOf (rbBreakAt8 (5 + 3 * ((1 : ℕ) : ℤ))) ≠ [] ∧
     (5 : ℤ) + 3 * ((1 : ℕ) : ℤ) < maxRequestsOf 5 (some 11) ∧
     rbBreakAt8 (5 + 3 * ((1 : ℕ) : ℤ) - 3) ≠ []) ∧
    (("max_throughput", ((5 + 3 * ((1 : ℕ) : ℤ) - 3 : ℤ) : ℚ) / 1) ∈
      pairsOf (FindMaxThroughput rbBreakAt8 5 (some 11) 60 1) ∧
    ∀ s ∈ FindMaxThroughput rbBreakAt8 5 (some 11) 60 1,
      s.metadata.parallel_requests = 5 + 3 * ((1 : ℕ) : ℤ) - 3) :=
  have h1 : ∀ j : ℕ, j < 1 → failedOf (rbBreakAt8 (5 + 3 * (j : ℤ))) = [] := by
    intro j hj
    interval_cases j
    norm_num [failedOf, isFailed, rbBreakAt8, okResp, FAIL_LATENCY, List.filter]
  have h2 : failedOf (rbBreakAt8 (5 + 3 * ((1 : ℕ) : ℤ))) ≠ [] := by
    norm_num [failedOf, isFailed, rbBreakAt8, slowResp, FAIL_LATENCY,
      List.filter]
  have h3 : (5 : ℤ) + 3 * ((1 : ℕ) : ℤ) < maxRequestsOf 5 (some 11) := by
    norm_num [maxRequestsOf]
  have h4 : rbBreakAt8 (5 + 3 * ((1 : ℕ) : ℤ) - 3) ≠ [] := by
    norm_num [rbBreakAt8]
  ⟨⟨le_refl 1, h1, h2, h3, h4⟩,
   claim_C3_amended rbBreakAt8 5 (some 11) 60 1 1 (le_refl 1) h1 h2 h3 h4⟩

/-- C4 (counterexample): MaxConcurrency = 5 equals StartConcurrency = 5,
a valid configuration per the claim, yet range(5, 5, 3) is empty: no
level at all is attempted, contradicting the claim's assertion that the
initial level is always attempted. -/
theorem claim_C4_counterexample :
    ((5 : ℤ) ≤ 5) ∧
    attemptedLevels rbEmptyAll 5 (some 5) = [] ∧
    (5 : ℤ) ∉ attemptedLevels rbEmptyAll 5 (some 5) := by
  refine ⟨by decide, by decide, by decide⟩

/-- C4 (amended): for valid configurations (StartConcurrency at least 1,
MaxConcurrency unset or at least StartConcurrency) the attempted levels
are exactly the arithmetic progression start, start+3, ... strictly below
MaxConcurrency, cut inclusively at the first level with a nonempty failed
set; with MaxConcurrency unset the schedule is the single level start;
and the initial level is attempted if and only if MaxConcurrency is unset
or strictly greater than StartConcurrency (when they are equal, no level
is attempted at all). -/
theorem claim_C4_amended (rb : ℤ → List ModelResponse) (start : ℤ)
    (maxReq : Option ℤ) (hstart : 1 ≤ start)
    (hvalid : maxReq = none ∨ ∃ m, maxReq = some m ∧ start ≤ m) :
    attemptedLevels rb start maxReq =
      truncAtFirstFailure rb (attemptLevels start maxReq) ∧
    (maxReq = none → attemptLevels start maxReq = [start]) ∧
    (start ∈ attemptedLevels rb start maxReq ↔
      maxReq = none ∨ ∃ m, maxReq = some m ∧ start < m) := by
  have h1 : attemptedLevels rb start maxReq =
      truncAtFirstFailure rb (attemptLevels start maxReq) := by
    rw [attemptedLevels, finalState, searchLoop_attempted]
    simp [initState]
  have hnone : attemptLevels start none = [start] := by
    have hmr : maxRequestsOf start none = start + 1 := rfl
    rw [attemptLevels, hmr, pythonRange3_eq_cons (by omega),
      pythonRange3_eq_nil (by omega)]
  refine ⟨h1, fun h => by rw [h]; exact hnone, ?_⟩
  rw [h1]
  rcases hvalid with rfl | ⟨m, rfl, hm⟩
  · rw [hnone]
    exact iff_of_true (mem_head_trunc rb start []) (Or.inl rfl)
  · have hm0 : m ≠ 0 := by omega
    have hmr : maxRequestsOf start (some m) = m := by
      simp [maxRequestsOf, hm0]
    by_cases hlt : start < m
    · rw [attemptLevels, hmr, pythonRange3_eq_cons hlt]
      exact iff_of_true (mem_head_trunc rb start _) (Or.inr ⟨m, rfl, hlt⟩)
    · rw [attemptLevels, hmr, pythonRange3_eq_nil (by omega)]
      refine iff_of_false (by simp [truncAtFirstFailure]) ?_
      rintro (h | ⟨m', hm', hlt'⟩)
      · exact Option.noConfusion h
      · obtain rfl := Option.some_inj.mp hm'
        omega

/-- C4 (witness): the amended theorem at start 5, MaxConcurrency 11,
with an oracle collecting nothing: all levels clean, so attempted levels
are exactly the full progression 5, 8. -/
theorem claim_C4_witness :
    ((1 : ℤ) ≤ 5 ∧
      ((some (11 : ℤ)) = none ∨
        ∃ m, (some (11 : ℤ)) = some m ∧ (5 : ℤ) ≤ m)) ∧
    (attemptedLevels rbEmptyAll 5 (some 11) =
      truncAtFirstFailure rbEmptyAll (attemptLevels 5 (some 11)) ∧
    ((some (11 : ℤ)) = none → attemptLevels 5 (some 11) = [5]) ∧
    ((5 : ℤ) ∈ attemptedLevels rbEmptyAll 5 (some 11) ↔
      (some (11 : ℤ)) = none ∨
        ∃ m, (some (11 : ℤ)) = some m ∧ (5 : ℤ) < m)) :=
  ⟨⟨by decide, Or.inr ⟨11, rfl, by decide⟩⟩,
   claim_C4_amended rbEmptyAll 5 (some 11) (by decide)
     (Or.inr ⟨11, rfl, by decide⟩)⟩

/-- C5: with at least one success, the Aggregator emits success_rate =
successes/(successes+failures)*100, num_responses = success count,
median/mean over the success durations via pymedian/pymean (the standard
definitions: pymedian reads the middle of an ascending permutation of the
values, averaging the two middles when even; pymean is sum/length), and
exactly when failures exist also their median duration and count. -/
theorem claim_C5_main (succs fails : List ModelResponse) (b td : ℤ)
    (bt : ℚ) (hs : succs ≠ []) :
    pairsOf (AggregateResponses succs fails b td bt) =
      (if fails = [] then []
       else
        [("failure_median_response_time", pymedian (durationsOf fails)),
         ("num_failures", (fails.length : ℚ))]) ++
      [("success_rate",
        (succs.length : ℚ) / ((succs.length : ℚ) + (fails.length : ℚ)) * 100),
       ("num_responses", (succs.length : ℚ)),
       ("median_response_time", pymedian (durationsOf succs)),
       ("mean_response_time", pymean (durationsOf succs))] ∧
    (sortAsc (durationsOf succs)).Sorted (· ≤ ·) ∧
    (sortAsc (durationsOf succs)).Perm (durationsOf succs) ∧
    pymean (durationsOf succs) =
      (durationsOf succs).sum / ((durationsOf succs).length : ℚ) := by
  refine ⟨?_, sortAsc_sorted _, sortAsc_perm _, rfl⟩
  rw [AggregateResponses_eq]
  by_cases hf : fails = [] <;> simp [pairsOf, hf, hs]

/-- C5 (witness): successes of durations 1, 2, 3 and one failure of
duration 96 give success_rate 75, median_response_time 2,
failure_median_response_time 96, as the spec's concrete instance says. -/
theorem claim_C5_witness :
    ([okResp, okResp2, okResp3] : List ModelResponse) ≠ [] ∧
    pairsOf (AggregateResponses [okResp, okResp2, okResp3] [slowResp] 4 60 1) =
      [("failure_median_response_time", 96), ("num_failures", 1),
       ("success_rate", 75), ("num_responses", 3),
       ("median_response_time", 2), ("mean_response_time", 2)] :=
  ⟨by decide, by
    rw [(claim_C5_main [okResp, okResp2, okResp3] [slowResp] 4 60 1
      (by decide)).1]
    norm_num [durationsOf, okResp, okResp2, okResp3, slowResp, pymedian,
      pymean, sortAsc, insertAsc]⟩

/-- C6 (counterexample): MaxConcurrency set to 0, strictly less than
StartConcurrency 5, is NOT rejected: Python integer truthiness makes the
check skip a zero flag value, so CheckPrerequisites returns normally. -/
theorem claim_C6_counterexample :
    ((0 : ℤ) < 5) ∧ CheckPrerequisites (some 0) 5 = .ok () :=
  ⟨by decide, rfl⟩

/-- C6 (amended): the prerequisite check rejects exactly the
configurations whose MaxConcurrency is set, NONZERO, and strictly less
than StartConcurrency; a zero MaxConcurrency is treated as unset (falsy)
and raises nothing, as does every other configuration. -/
theorem claim_C6_amended (maxReq : Option ℤ) (start : ℤ) :
    (CheckPrerequisites maxReq start).isOk = false ↔
      ∃ m, maxReq = some m ∧ m ≠ 0 ∧ m < start := by
  rcases maxReq with _ | m
  · constructor
    · intro h
      exact absurd h (by simp [CheckPrerequisites, Except.isOk, Except.toBool])
    · rintro ⟨m, hm, _⟩
      exact Option.noConfusion hm
  · by_cases h : m ≠ 0 ∧ m < start
    · constructor
      · intro _
        exact ⟨m, rfl, h⟩
      · intro _
        simp [CheckPrerequisites, if_pos h, Except.isOk, Except.toBool]
    · constructor
      · intro hfalse
        exact absurd hfalse
          (by simp [CheckPrerequisites, if_neg h, Except.isOk, Except.toBool])
      · rintro ⟨m', hm', hcond⟩
        obtain rfl := Option.some_inj.mp hm'
        exact absurd hcond h

/-- C6 (witness): MaxConcurrency 3 below StartConcurrency 5 is rejected. -/
theorem claim_C6_witness :
    (CheckPrerequisites (some 3) 5).isOk = false ∧
    ∃ m, (some (3 : ℤ)) = some m ∧ m ≠ 0 ∧ m < 5 :=
  ⟨(claim_C6_amended (some 3) 5).mpr ⟨3, rfl, by decide, by decide⟩,
   ⟨3, rfl, by decide, by decide⟩⟩

/-- C7: every invocation of the worker body appends exactly one outcome
to the queue before terminating, whatever the target call returned; the
caught GetError signal is recorded as status 1 (Error) and the function
is total, so no exception escapes the worker. -/
theorem claim_C7_main (sendResult : Except GetError (Option String))
    (t0 t1 : ℚ) (queue : List ModelResponse) :
    (TimePromptsForModel sendResult t0 t1 queue).length = queue.length + 1 ∧
    ∃ o : ModelResponse,
      TimePromptsForModel sendResult t0 t1 queue = queue ++ [o] ∧
      o.start_time = t0 ∧ o.end_time = t1 ∧
      o.status = (match sendResult with | .ok _ => 0 | .error _ => 1) := by
  rcases sendResult with r | e <;>
    exact ⟨by simp [TimePromptsForModel], ⟨_, rfl, rfl, rfl, rfl⟩⟩

/-- C8: the non-strict run never aborts and returns collected results
together with the logged client-overload warnings; any burst-launch
overload or join overload makes that warning list nonempty; and the
strict run returns the very same result when no condition was flagged but
aborts with a hard error as soon as any condition was flagged. -/
theorem claim_C8_main (env : BurstEnv) (br : ℕ) (td : ℤ) (tb : ℚ) :
    (BurstRequestsOverTime env false br td tb).isOk = true ∧
    ∀ r evs, BurstRequestsOverTime env false br td tb = .ok (r, evs) →
      (launchOverloads env tb (goalBursts td tb) ≠ [] → evs ≠ []) ∧
      (joinFlag env br td tb = true → evs ≠ []) ∧
      (evs = [] → BurstRequestsOverTime env true br td tb = .ok (r, evs)) ∧
      (evs ≠ [] → (BurstRequestsOverTime env true br td tb).isOk = false) := by
  have hns := burst_nonstrict_eq env br td tb
  constructor
  · rw [hns]
    by_cases h1 : (firstDrain env br td tb).1 = [] <;>
      simp [h1, Except.isOk, Except.toBool]
  · intro r evs hok
    rw [hns] at hok
    by_cases h1 : (firstDrain env br td tb).1 = []
    · rw [if_pos h1] at hok
      have hinj := Except.ok.inj hok
      obtain ⟨rfl, rfl⟩ :
          (fallbackDrain env br td tb).1 = r ∧
          clientEvents (launchOverloads env tb (goalBursts td tb))
            (firstDrain env br td tb).2 (joinFlag env br td tb)
            (fallbackDrain env br td tb).2 = evs :=
        ⟨congrArg Prod.fst hinj, congrArg Prod.snd hinj⟩
      refine ⟨fun hL => clientEvents_ne_of_launches hL _ _ _,
        fun hj => clientEvents_ne_of_join _ _ hj _, ?_, ?_⟩
      · intro hevs
        obtain ⟨hL, hb1, hjo, hb3⟩ :=
          (clientEvents_eq_nil_iff _ _ _ _).mp hevs
        simp [BurstRequestsOverTime, hL, hb1, hjo, hb3, h1]
      · intro hevs
        by_cases hL : launchOverloads env tb (goalBursts td tb) = []
        · by_cases hb1 : (firstDrain env br td tb).2 = true
          · simp [BurstRequestsOverTime, hL, hb1, Except.isOk, Except.toBool]
          · have hb1f : (firstDrain env br td tb).2 = false := by
              simpa using hb1
            by_cases hjo : joinFlag env br td tb = true
            · simp [BurstRequestsOverTime, hL, hjo, hb1f, Except.isOk,
                Except.toBool]
            · have hjof : joinFlag env br td tb = false := by simpa using hjo
              have hb3 : (fallbackDrain env br td tb).2 = true := by
                by_contra hb3f
                exact hevs ((clientEvents_eq_nil_iff _ _ _ _).mpr
                  ⟨hL, hb1f, hjof, by simpa using hb3f⟩)
              simp [BurstRequestsOverTime, hL, hb1f, hjof, h1, hb3,
                Except.isOk, Except.toBool]
        · simp [BurstRequestsOverTime, hL, Except.isOk, Except.toBool]
    · rw [if_neg h1] at hok
      have hinj := Except.ok.inj hok
      obtain ⟨rfl, rfl⟩ :
          (firstDrain env br td tb).1 = r ∧
          clientEvents (launchOverloads env tb (goalBursts td tb))
            (firstDrain env br td tb).2 (joinFlag env br td tb) false = evs :=
        ⟨congrArg Prod.fst hinj, congrArg Prod.snd hinj⟩
      refine ⟨fun hL => clientEvents_ne_of_launches hL _ _ _,
        fun hj => clientEvents_ne_of_join _ _ hj _, ?_, ?_⟩
      · intro hevs
        obtain ⟨hL, hb1, hjo, _⟩ :=
          (clientEvents_eq_nil_iff _ _ _ _).mp hevs
        simp [BurstRequestsOverTime, hL, hb1, hjo, h1]
      · intro hevs
        by_cases hL : launchOverloads env tb (goalBursts td tb) = []
        · by_cases hb1 : (firstDrain env br td tb).2 = true
          · simp [BurstRequestsOverTime, hL, hb1, Except.isOk, Except.toBool]
          · have hb1f : (firstDrain env br td tb).2 = false := by
              simpa using hb1
            by_cases hjo : joinFlag env br td tb = true
            · simp [BurstRequestsOverTime, hL, hjo, hb1f, Except.isOk,
                Except.toBool]
            · have hjof : joinFlag env br td tb = false := by simpa using hjo
              exact absurd ((clientEvents_eq_nil_iff _ _ _ _).mpr
                ⟨hL, hb1f, hjof, rfl⟩) hevs
        · simp [BurstRequestsOverTime, hL, Except.isOk, Except.toBool]

/-- C8 (witness): with a launch of 2 s against a burst interval of 1 s,
the non-strict run logs the overload and still returns a result, and the
strict run aborts. -/
theorem claim_C8_witness :
    BurstRequestsOverTime envLaunchSlow false 1 1 1 =
      .ok ([], ["client overload: burst launch exceeded burst interval"]) ∧
    (BurstRequestsOverTime envLaunchSlow true 1 1 1).isOk = false := by
  have hok : BurstRequestsOverTime envLaunchSlow false 1 1 1 =
      .ok ([], ["client overload: burst launch exceeded burst interval"]) := by
    norm_num [BurstRequestsOverTime, goalBursts, launchOverloads,
      envLaunchSlow, envQuiet, firstDrain, fallbackDrain, joinFlag,
      totalWorkers, earlyQueue, lateQueue, emptyQueueLoop, joinLoop,
      clientEvents, List.filter, List.range_succ, List.range_zero, QUEUE_WAIT_TIME,
      FAIL_LATENCY, workerOutcome, Int.floor_one]
  refine ⟨hok, ?_⟩
  exact ((claim_C8_main envLaunchSlow 1 1 1).2 []
    ["client overload: burst launch exceeded burst interval"] hok).2.2.2
    (by decide)

/-- C9: any list of outcomes returned by BurstRequestsOverTime has length
at most concurrency times goal_bursts, where goal_bursts is the floor of
total_duration / burst_interval: each dispatched worker contributes at
most one queue item and each drain consumes each item at most once. -/
theorem claim_C9_main (env : BurstEnv) (strict : Bool) (br : ℕ) (td : ℤ)
    (tb : ℚ) (r : List ModelResponse) (evs : List String)
    (hok : BurstRequestsOverTime env strict br td tb = .ok (r, evs)) :
    r.length ≤ br * goalBursts td tb := by
  have hN : totalWorkers br td tb = goalBursts td tb * br := rfl
  simp only [BurstRequestsOverTime] at hok
  split at hok
  · exact Except.noConfusion hok
  · split at hok
    · exact Except.noConfusion hok
    · split at hok
      · exact Except.noConfusion hok
      · split at hok
        · split at hok
          · exact Except.noConfusion hok
          · have hr : (fallbackDrain env br td tb).1 = r :=
              congrArg Prod.fst (Except.ok.inj hok)
            rw [← hr, Nat.mul_comm br (goalBursts td tb)]
            have := fallbackDrain_len env br td tb
            rw [hN] at this
            omega
        · have hr : (firstDrain env br td tb).1 = r :=
            congrArg Prod.fst (Except.ok.inj hok)
          rw [← hr, Nat.mul_comm br (goalBursts td tb)]
          have := firstDrain_len env br td tb
          rw [hN] at this
          omega

/-- C9 (witness): a quiet one-burst, one-worker run returns zero
collected outcomes, within the bound 1 * 1. -/
theorem claim_C9_witness :
    BurstRequestsOverTime envQuiet false 1 1 1 = .ok ([], []) ∧
    ([] : List ModelResponse).length ≤ 1 * goalBursts 1 1 := by
  have hok : BurstRequestsOverTime envQuiet false 1 1 1 = .ok ([], []) := by
    norm_num [BurstRequestsOverTime, goalBursts, launchOverloads, envQuiet,
      firstDrain, fallbackDrain, joinFlag, totalWorkers, earlyQueue,
      lateQueue, emptyQueueLoop, joinLoop, clientEvents, List.filter,
      List.range_succ, List.range_zero, QUEUE_WAIT_TIME, FAIL_LATENCY, workerOutcome,
      Int.floor_one]
  exact ⟨hok, claim_C9_main envQuiet false 1 1 1 [] [] hok⟩

/-- C10: whenever the loop of FindMaxThroughput ends with empty retained
clean outcomes (in particular when the last clean run collected zero
outcomes), the no-successful-level branch is taken: the report is the
aggregation of the final run's outcomes labelled with StartConcurrency,
and no max_throughput sample is emitted. -/
theorem claim_C10_main (rb : ℤ → List ModelResponse) (start : ℤ)
    (maxReq : Option ℤ) (td : ℤ) (bt : ℚ)
    (h : (finalState rb start maxReq).last_responses = []) :
    FindMaxThroughput rb start maxReq td bt =
      AggregateResponses (finalState rb start maxReq).responses
        (finalState rb start maxReq).failed_responses start td bt ∧
    "max_throughput" ∉ metricsOf (FindMaxThroughput rb start maxReq td bt) ∧
    ∀ s ∈ FindMaxThroughput rb start maxReq td bt,
      s.metadata.parallel_requests = start := by
  have he := FindMaxThroughput_degraded_eq rb start maxReq td bt h
  refine ⟨he, ?_, ?_⟩
  · rw [he]; exact max_throughput_not_in_agg _ _ _ _ _
  · rw [he]
    intro s hs
    rw [metadata_AggregateResponses _ _ _ _ _ s hs]
    rfl

/-- C10 (witness): the single attempted level collects zero outcomes; the
degraded branch is taken with label 5 although no failure was observed. -/
theorem claim_C10_witness :
    (finalState rbEmptyAll 5 none).last_responses = [] ∧
    (FindMaxThroughput rbEmptyAll 5 none 60 1 =
      AggregateResponses (finalState rbEmptyAll 5 none).responses
        (finalState rbEmptyAll 5 none).failed_responses 5 60 1 ∧
    "max_throughput" ∉ metricsOf (FindMaxThroughput rbEmptyAll 5 none 60 1) ∧
    ∀ s ∈ FindMaxThroughput rbEmptyAll 5 none 60 1,
      s.metadata.parallel_requests = 5) :=
  ⟨by decide, claim_C10_main rbEmptyAll 5 none 60 1 (by decide)⟩

end AiModelThroughput
